import Mathlib

/-!
Verification of the Pranamesh AQI dashboard's core logic: a shallow embedding
of the dual-store synchronization layer (`firestore-aqi-service.ts`), the
scraper retry/cache loop (`scrapeAQIIn` and helpers), and the HTTP handlers
(`/api/firebase` POST validation, the historical GET handler, and the
`/api/weather` GET fallback chain).

Modelling conventions:
- JavaScript numbers are modelled as rationals (ℚ); `parseInt` results in the
  scraper are naturals; `Math.round`/`Math.ceil` are modelled exactly on ℚ.
- Fallible asynchronous operations are modelled by explicit outcome values
  (`JSResult`): a promise that resolves is `.ret`, one that rejects (error or
  a lost `Promise.race` against a timer) is `.thrown`.
- Module-level mutable state (the scraper cache) is threaded explicitly:
  functions take the state before the call and return the state after.
- Side effects on external stores are returned as explicit write descriptions
  so theorems can talk about which writes were issued.
-/

namespace Pranamesh

/-! ### JavaScript value model (for the POST body validation) -/

/-- A JavaScript primitive value as seen by `validateReading` in
`src/app/api/firebase/route.ts`. -/
inductive JSVal where
  | vNum : ℚ → JSVal
  | vStr : String → JSVal
  | vBool : Bool → JSVal
  | vNull : JSVal
  | vUndef : JSVal
  deriving DecidableEq

/-- JavaScript truthiness test (`!x`): `0`, `""`, `false`, `null`,
`undefined` are falsy. -/
def JSVal.falsy : JSVal → Bool
  | .vNum q => q == 0
  | .vStr s => s == ""
  | .vBool b => !b
  | .vNull => true
  | .vUndef => true

/-- Models `typeof x === "string"`. -/
def JSVal.isStr : JSVal → Bool
  | .vStr _ => true
  | _ => false

/-- Models `typeof x === "number"`. -/
def JSVal.isNum : JSVal → Bool
  | .vNum _ => true
  | _ => false

/-- The `pollutants` sub-object of a POST body; only `pm25` and `pm10` are
inspected by validation. -/
structure PollutantsIn where
  pm25 : JSVal
  pm10 : JSVal
  deriving DecidableEq

/-- The `pollutants` field of a POST body: either a real object, or anything
else (`undefined`, `null`, a primitive), all of which the guard
`!data.pollutants || typeof data.pollutants !== "object"` rejects. -/
inductive PollVal where
  | pObj : PollutantsIn → PollVal
  | pOther : PollVal
  deriving DecidableEq

/-- A single-reading POST body as inspected by `validateReading`. -/
structure ReadingIn where
  stationId : JSVal
  aqi : JSVal
  pollutants : PollVal
  deriving DecidableEq

/-- Embedding of `validateReading` (route.ts lines 41-58): returns the error
message, or `none` when the reading is accepted. -/
def validateReading (data : ReadingIn) : Option String :=
  if data.stationId.falsy || !data.stationId.isStr then
    some "stationId is required and must be a string"
  else
    match data.aqi with
    | .vNum q =>
      if q < 0 ∨ 500 < q then
        some "aqi must be a number between 0 and 500"
      else
        match data.pollutants with
        | .pObj p =>
          if !p.pm25.isNum then some "pollutants.pm25 is required"
          else if !p.pm10.isNum then some "pollutants.pm10 is required"
          else none
        | .pOther => some "pollutants object is required"
    | _ => some "aqi must be a number between 0 and 500"

/-- The part of the POST handler's single-reading response a claim talks
about: the HTTP status and success flag.  The route itself performs no store
write (it only validates and echoes the data back). -/
structure ApiResponse where
  status : Nat
  success : Bool
  error : Option String
  deriving DecidableEq

/-- Embedding of the single-reading path of `POST /api/firebase`
(route.ts lines 106-130): a validation error yields HTTP 400, otherwise a
200 success response. -/
def postSingle (data : ReadingIn) : ApiResponse :=
  match validateReading data with
  | some e => { status := 400, success := false, error := some e }
  | none => { status := 200, success := true, error := none }

/-! ### Dual-store synchronization model (`firestore-aqi-service.ts`) -/

/-- Result of a JavaScript async operation: `.ret` when the awaited promise
resolves, `.thrown` when it rejects (an error, or the 10s timer winning a
`Promise.race`). -/
inductive JSResult (α : Type) where
  | ret : α → JSResult α
  | thrown : String → JSResult α
  deriving DecidableEq

/-- The reading source tag. -/
inductive Source where
  | manual
  | sensor
  | api
  deriving DecidableEq

/-- Optional reading metadata (`AQIReading.metadata`). -/
structure Metadata where
  deviceId : Option String := none
  operatorId : Option String := none
  notes : Option String := none
  deriving DecidableEq

/-- Models `Object.keys(metadata).length`: the number of present keys. -/
def Metadata.keyCount (m : Metadata) : Nat :=
  (if m.deviceId.isSome then 1 else 0) +
    (if m.operatorId.isSome then 1 else 0) +
    (if m.notes.isSome then 1 else 0)

/-- The `Pollutants` type from `src/types/index.ts`: six required numeric
fields plus an optional `voc`. -/
structure Pollutants where
  pm25 : ℚ
  pm10 : ℚ
  co : ℚ
  no2 : ℚ
  so2 : ℚ
  o3 : ℚ
  voc : Option ℚ := none
  deriving DecidableEq

/-- An `AQIReading` before it is assigned a document id (the
`Omit<AQIReading, "id">` argument of `saveAQIReading`).  Timestamps are epoch
milliseconds. -/
structure AQIReadingNoId where
  stationId : String
  aqi : ℚ
  pollutants : Pollutants
  timestamp : Nat
  source : Source
  metadata : Option Metadata := none
  deriving DecidableEq

/-- An `AQIReading` as returned to the caller, with the auto-generated id. -/
structure AQIReading where
  id : Option String := none
  stationId : String
  aqi : ℚ
  pollutants : Pollutants
  timestamp : Nat
  source : Source
  metadata : Option Metadata := none
  deriving DecidableEq

/-- The generic `FirestoreResult<T>` shape. -/
structure FirestoreResult (α : Type) where
  success : Bool
  data : Option α := none
  error : Option String := none
  deriving DecidableEq

/-- The durable Firestore document built by `saveAQIReading` (lines 178-189):
`metadata = none` models the key being omitted from the document, which
happens when the reading has no metadata or an empty metadata object. -/
structure ReadingDoc where
  stationId : String
  aqi : ℚ
  pollutants : Pollutants
  timestamp : Nat
  source : Source
  metadata : Option Metadata
  deriving DecidableEq

/-- Builds the `docData` record of `saveAQIReading`, omitting `metadata`
unless it exists and has at least one key. -/
def buildDocData (r : AQIReadingNoId) : ReadingDoc :=
  { stationId := r.stationId
    aqi := r.aqi
    pollutants := r.pollutants
    timestamp := r.timestamp
    source := r.source
    metadata :=
      match r.metadata with
      | some m => if 0 < m.keyCount then some m else none
      | none => none }

/-- The Realtime Database `set` payload written by `syncToRealtimeDatabase`
at path `stations/<stationId>` (lines 321-332). -/
structure RTDBSet where
  path : String
  aqi : ℚ
  pm25 : ℚ
  pm10 : ℚ
  co : ℚ
  no2 : ℚ
  so2 : ℚ
  o3 : ℚ
  lastUpdated : Nat
  source : Source
  deriving DecidableEq

/-- Builds the `dataToSync` payload mirrored to the Realtime Database;
`lastUpdated` is the reading's timestamp (`toISOString` of it). -/
def mkRTDBSet (stationId : String) (r : AQIReadingNoId) : RTDBSet :=
  { path := "stations/" ++ stationId
    aqi := r.aqi
    pm25 := r.pollutants.pm25
    pm10 := r.pollutants.pm10
    co := r.pollutants.co
    no2 := r.pollutants.no2
    so2 := r.pollutants.so2
    o3 := r.pollutants.o3
    lastUpdated := r.timestamp
    source := r.source }

/-- Environment of one `syncToRealtimeDatabase` call: configuration state and
the outcome of the raced `set` (`.thrown` covers both a `set` rejection and
the 10-second timeout winning the race). -/
structure SyncEnv where
  configured : Bool
  dbAvailable : Bool
  setOutcome : JSResult Unit
  deriving DecidableEq

/-- The body of the `try` block of `syncToRealtimeDatabase`: awaiting the
raced `set` either yields the completed write or throws. -/
def syncBody (env : SyncEnv) (stationId : String) (r : AQIReadingNoId) :
    JSResult (Option RTDBSet) :=
  match env.setOutcome with
  | .ret _ => .ret (some (mkRTDBSet stationId r))
  | .thrown e => .thrown e

/-- Embedding of `syncToRealtimeDatabase` (lines 297-344).  Returns the
mirror write it observed as completed (if any); the surrounding `try`/`catch`
swallows every failure, so the function itself never throws. -/
def syncToRealtimeDatabase (env : SyncEnv) (stationId : String)
    (r : AQIReadingNoId) : JSResult (Option RTDBSet) :=
  if !env.configured then .ret none
  else if !env.dbAvailable then .ret none
  else
    match syncBody env stationId r with
    | .ret w => .ret w
    | .thrown _ => .ret none

/-- Environment of one `saveAQIReading` call: configuration state, the
outcome of the raced `addDoc` (`.ret docId` carries the auto-generated id;
`.thrown` covers both an `addDoc` rejection and the 10-second timeout), and
the environment of the nested mirror sync. -/
structure SaveEnv where
  firebaseConfigured : Bool
  firestoreAvailable : Bool
  addDocOutcome : JSResult String
  sync : SyncEnv
  deriving DecidableEq

/-- The externally visible writes of one `saveAQIReading` call. -/
structure SaveTrace where
  firestoreDoc : Option ReadingDoc := none
  rtdbSet : Option RTDBSet := none
  deriving DecidableEq

/-- Embedding of `saveAQIReading` (lines 164-221).  The durable `addDoc` is
awaited first; on its failure the `catch` returns a failure result.  On
success the mirror sync runs; were the sync to throw, the same `catch` would
turn the overall result into a failure — the second match arm models that
enclosing `catch`, and the asymmetry claims rest on `syncToRealtimeDatabase`
never taking it. -/
def saveAQIReading (env : SaveEnv) (r : AQIReadingNoId) :
    FirestoreResult AQIReading × SaveTrace :=
  if !env.firebaseConfigured then
    ({ success := false, error := some "Firebase not configured" }, {})
  else if !env.firestoreAvailable then
    ({ success := false, error := some "Firestore not available" }, {})
  else
    match env.addDocOutcome with
    | .thrown e => ({ success := false, error := some e }, {})
    | .ret docId =>
      let savedReading : AQIReading :=
        { id := some docId
          stationId := r.stationId
          aqi := r.aqi
          pollutants := r.pollutants
          timestamp := r.timestamp
          source := r.source
          metadata := r.metadata }
      match syncToRealtimeDatabase env.sync r.stationId r with
      | .ret w =>
        ({ success := true, data := some savedReading },
          { firestoreDoc := some (buildDocData r), rtdbSet := w })
      | .thrown e =>
        ({ success := false, error := some e },
          { firestoreDoc := some (buildDocData r), rtdbSet := none })

/-- Embedding of `updateAQIData` (lines 387-406): builds the reading with
the current time, defaulting the source to `manual`, and delegates to
`saveAQIReading`. -/
def updateAQIData (env : SaveEnv) (stationId : String) (now : Nat) (aqi : ℚ)
    (pollutants : Pollutants) (src : Option Source) (md : Option Metadata) :
    FirestoreResult AQIReading × SaveTrace :=
  saveAQIReading env
    { stationId := stationId
      aqi := aqi
      pollutants := pollutants
      timestamp := now
      source := src.getD .manual
      metadata := md }

/-! ### Batch mirror updates (`batchUpdateRealtimeDB`) -/

/-- Partial pollutants accepted by the batch update. -/
structure PartialPollutants where
  pm25 : Option ℚ := none
  pm10 : Option ℚ := none
  co : Option ℚ := none
  no2 : Option ℚ := none
  so2 : Option ℚ := none
  o3 : Option ℚ := none
  deriving DecidableEq

/-- One item of a `batchUpdateRealtimeDB` call. -/
structure BatchItem where
  stationId : String
  aqi : ℚ
  pollutants : PartialPollutants
  deriving DecidableEq

/-- The `update` payload issued for one batch item. -/
structure RTDBUpdate where
  path : String
  aqi : ℚ
  pollutants : PartialPollutants
  lastUpdated : Nat
  deriving DecidableEq

/-- Outcome of one item's `update` promise. -/
inductive UpdOutcome where
  | ok
  | fail : String → UpdOutcome
  deriving DecidableEq

/-- Builds the `update` payload for one batch item. -/
def mkBatchUpdate (now : Nat) (it : BatchItem) : RTDBUpdate :=
  { path := "stations/" ++ it.stationId
    aqi := it.aqi
    pollutants := it.pollutants
    lastUpdated := now }

/-- Models `updates.map(async ...)` followed by `Promise.all`: every item's
`update` is issued when its promise is created, before any join, so each
write is issued (and succeeds or fails on its own) regardless of the other
items.  Returns the issued writes paired with their own completion flag, and
the rejection reason `Promise.all` surfaces (the first failing item in list
order; actual rejection timing is abstracted). -/
def issueUpdates (now : Nat) :
    List (BatchItem × UpdOutcome) → List (RTDBUpdate × Bool) × Option String
  | [] => ([], none)
  | (it, o) :: rest =>
    match o with
    | .ok =>
      ((mkBatchUpdate now it, true) :: (issueUpdates now rest).1,
        (issueUpdates now rest).2)
    | .fail msg =>
      ((mkBatchUpdate now it, false) :: (issueUpdates now rest).1, some msg)

/-- Embedding of `batchUpdateRealtimeDB` (lines 349-378): all updates are
issued concurrently and joined; the overall result fails iff some item
failed, but the issued writes are unaffected by other items' outcomes. -/
def batchUpdateRealtimeDB (configured dbAvailable : Bool) (now : Nat)
    (updates : List (BatchItem × UpdOutcome)) :
    FirestoreResult Unit × List (RTDBUpdate × Bool) :=
  if !configured then
    ({ success := false, error := some "Realtime Database not configured" }, [])
  else if !dbAvailable then
    ({ success := false, error := some "Database not available" }, [])
  else
    match (issueUpdates now updates).2 with
    | none => ({ success := true }, (issueUpdates now updates).1)
    | some msg =>
      ({ success := false, error := some msg }, (issueUpdates now updates).1)

/-! ### Scraper model (`scrapeAQIIn` and helpers) -/

/-- Models `CACHE_DURATION = 5 * 60 * 1000` milliseconds. -/
def CACHE_DURATION : Nat := 5 * 60 * 1000

/-- Models `maxRetries = 3`. -/
def maxRetries : Nat := 3

/-- One city entry scraped from the dashboard's city links. -/
structure ScrapedCity where
  name : String
  aqi : Nat
  deriving DecidableEq

/-- The `AQIScrapedData` snapshot returned by a successful scrape.
`lastUpdated` is the capture time in epoch milliseconds (the source stores
its ISO string).  Secondary fields are integers because they come either
from `parseInt` or from `Math.round`. -/
structure AQIScrapedData where
  delhiAqi : Nat
  pm25 : ℤ
  pm10 : ℤ
  temperature : ℤ
  humidity : ℤ
  windSpeed : ℤ
  lastUpdated : Nat
  cities : List ScrapedCity
  deriving DecidableEq

/-- The module-level cache slot `cachedScrapedData`: a nullable data field
plus the capture timestamp (matching the source's
`{ data: AQIScrapedData | null; timestamp: number }`). -/
structure CacheSlot where
  data : Option AQIScrapedData
  timestamp : Nat
  deriving DecidableEq

/-- The raw values `page.evaluate` extracts on one attempt; all come from
`parseInt` over regex matches, so they are naturals (0 meaning "not
found"). -/
structure Extracted where
  delhiAqi : Nat
  pm25 : Nat
  pm10 : Nat
  temperature : Nat
  humidity : Nat
  windSpeed : Nat
  cities : List ScrapedCity
  deriving DecidableEq

/-- Outcome of one scrape attempt's browser interaction: the Cloudflare
challenge never cleared, extraction ran and produced raw values, or an
exception was thrown somewhere in the `try` block. -/
inductive AttemptOutcome where
  | blocked
  | extracted : Extracted → AttemptOutcome
  | exn
  deriving DecidableEq

/-- Observable browser-side events of a scrape call, tagged with the attempt
number: creating a fresh browsing context, navigating to the dashboard, and
the randomized `humanDelay(3000, 5000)` backoff of the `catch` path. -/
inductive ScrapeEvent where
  | newContext : Nat → ScrapeEvent
  | navigate : Nat → ScrapeEvent
  | backoff : Nat → ScrapeEvent
  deriving DecidableEq

/-- Models JavaScript `Math.round` on an exact rational (round half up). -/
def jsRound (q : ℚ) : ℤ := ⌊q + 1 / 2⌋

/-- Builds the `AQIScrapedData` result from raw extracted values (lines
899-908): a zero (falsy) secondary field is replaced by a synthesized value
derived from the AQI or a fixed default. -/
def buildScrapeResult (now : Nat) (d : Extracted) : AQIScrapedData :=
  { delhiAqi := d.delhiAqi
    pm25 := if d.pm25 ≠ 0 then (d.pm25 : ℤ) else jsRound ((d.delhiAqi : ℚ) * (7 / 10))
    pm10 := if d.pm10 ≠ 0 then (d.pm10 : ℤ) else jsRound ((d.delhiAqi : ℚ) * (11 / 10))
    temperature := if d.temperature ≠ 0 then (d.temperature : ℤ) else 15
    humidity := if d.humidity ≠ 0 then (d.humidity : ℤ) else 70
    windSpeed := if d.windSpeed ≠ 0 then (d.windSpeed : ℤ) else 10
    lastUpdated := now
    cities := d.cities }

/-- The retry loop of `scrapeAQIIn` (lines 766-937), driven by the outcome
of each attempt.  `remaining + 1` is the number of attempts still allowed
including the current one; the loop starts at `attempt = 1` with
`maxRetries` attempts.  A blocked challenge or a zero extracted AQI closes
the context and continues immediately (no backoff); an exception returns
`null` when the current attempt is the last, and otherwise backs off with
`humanDelay(3000, 5000)` before the next attempt; a nonzero extraction
builds the result, overwrites the cache, and returns.  Falling off the loop
returns `null` with the cache untouched. -/
def scrapeLoop (now : Nat) (cache : Option CacheSlot)
    (outcomes : Nat → AttemptOutcome) :
    Nat → Nat → Option AQIScrapedData × Option CacheSlot × List ScrapeEvent
  | _, 0 => (none, cache, [])
  | attempt, remaining + 1 =>
    match outcomes attempt with
    | .blocked =>
      let r := scrapeLoop now cache outcomes (attempt + 1) remaining
      (r.1, r.2.1, .newContext attempt :: .navigate attempt :: r.2.2)
    | .extracted d =>
      if d.delhiAqi = 0 then
        let r := scrapeLoop now cache outcomes (attempt + 1) remaining
        (r.1, r.2.1, .newContext attempt :: .navigate attempt :: r.2.2)
      else
        let result := buildScrapeResult now d
        (some result, some { data := some result, timestamp := now },
          [.newContext attempt, .navigate attempt])
    | .exn =>
      if remaining = 0 then (none, cache, [.newContext attempt, .navigate attempt])
      else
        let r := scrapeLoop now cache outcomes (attempt + 1) remaining
        (r.1, r.2.1,
          .newContext attempt :: .navigate attempt :: .backoff attempt :: r.2.2)

/-- Models the cache freshness test
`Date.now() - cachedScrapedData.timestamp < CACHE_DURATION`. -/
def cacheFresh (now : Nat) (cache : Option CacheSlot) : Bool :=
  match cache with
  | none => false
  | some slot => decide ((now : ℤ) - (slot.timestamp : ℤ) < (CACHE_DURATION : ℤ))

/-- Embedding of `scrapeAQIIn` (lines 756-938): returns the scraped data (or
`none`), the cache slot after the call, and the browser events performed.
A fresh cache is returned immediately with no browser activity; otherwise
the retry loop runs with `maxRetries` attempts starting at attempt 1. -/
def scrapeAQIIn (now : Nat) (cache : Option CacheSlot)
    (outcomes : Nat → AttemptOutcome) :
    Option AQIScrapedData × Option CacheSlot × List ScrapeEvent :=
  match cache with
  | some slot =>
    if (now : ℤ) - (slot.timestamp : ℤ) < (CACHE_DURATION : ℤ) then
      (slot.data, some slot, [])
    else scrapeLoop now (some slot) outcomes 1 maxRetries
  | none => scrapeLoop now none outcomes 1 maxRetries

/-! ### Historical GET handler (`/api/history` route, second document of
`src/app/api/firebase/route.ts`) -/

/-- The accepted `range` query values. -/
def validRanges : List String := ["24h", "7d", "30d", "custom"]

/-- A date query parameter: the raw string and its `new Date(s).getTime()`
value (`none` when the date is invalid, i.e. `getTime()` is NaN). -/
structure DateParam where
  raw : String
  parsed : Option ℤ
  deriving DecidableEq

/-- The query parameters of one historical GET request after URL parsing. -/
structure HistQuery where
  range : String
  station : String
  startDate : Option DateParam := none
  endDate : Option DateParam := none
  deriving DecidableEq

/-- Outcome of the historical GET handler: an HTTP 400 response with an
error message, or a `getHistoricalData` store access with the validated
arguments. -/
inductive HistResponse where
  | badRequest : String → HistResponse
  | fetched : String → String → Option (String × String) → HistResponse
  deriving DecidableEq

/-- Embedding of the historical `GET` handler (route lines 191-266),
parametrized by the `DELHI_STATIONS` id allow-list (defined in
`src/lib/historical-api`, outside the sources; only membership matters
here).  Validation runs in source order: range, station, then for `custom`
the presence, parseability, ordering, and 90-day cap of the dates; only a
fully validated request reaches `getHistoricalData` (the `fetched`
constructor). -/
def historyGET (stationIds : List String) (q : HistQuery) : HistResponse :=
  if !(validRanges.contains q.range) then
    .badRequest "Invalid range. Use 24h, 7d, 30d, or custom"
  else if !(stationIds.contains q.station) then
    .badRequest "Invalid station"
  else if q.range = "custom" then
    match q.startDate, q.endDate with
    | some sp, some ep =>
      match sp.parsed, ep.parsed with
      | some s, some e =>
        if e < s then
          .badRequest "Start date must be before or equal to end date"
        else if 90 < ⌈(((e - s : ℤ) : ℚ)) / (1000 * 60 * 60 * 24)⌉ then
          .badRequest "Date range cannot exceed 90 days"
        else .fetched q.station q.range (some (sp.raw, ep.raw))
      | _, _ =>
        .badRequest "Invalid date format. Use ISO date string (YYYY-MM-DD)"
    | _, _ =>
      .badRequest "Custom range requires startDate and endDate parameters"
  else .fetched q.station q.range none

/-! ### Weather GET handler (`/api/weather/route.ts`) -/

/-- The fields of an AccuWeather tier result the fallback logic forwards
(the tier also forwards several extra fields — UV, pressure, etc. — that no
claim mentions; the three shared measurements suffice here). -/
structure AccuWeatherData where
  temperature : ℚ
  humidity : ℚ
  windSpeed : ℚ
  deriving DecidableEq

/-- The fields of a WAQI tier result the fallback logic forwards. -/
structure WAQIWeatherData where
  temperature : ℚ
  humidity : ℚ
  windSpeed : ℚ
  deriving DecidableEq

/-- The fields of a scraped-data tier result the fallback logic forwards. -/
structure ScrapedWeather where
  temperature : ℚ
  humidity : ℚ
  windSpeed : ℚ
  deriving DecidableEq

/-- The weather response: success flag, the tier tag, and the three shared
measurements. -/
structure WeatherResponse where
  success : Bool
  source : String
  temperature : ℚ
  humidity : ℚ
  windSpeed : ℚ
  deriving DecidableEq

/-- Embedding of the weather `GET` handler (weather route lines 102-188):
each tier is tried in order — AccuWeather, WAQI, scraped data — and the
first one that yields data is returned with its tag; when all fail, static
defaults are returned with the `fallback` tag. -/
def weatherGET (accu : Option AccuWeatherData) (waqi : Option WAQIWeatherData)
    (scraped : Option ScrapedWeather) : WeatherResponse :=
  match accu with
  | some a =>
    { success := true, source := "accuweather", temperature := a.temperature
      humidity := a.humidity, windSpeed := a.windSpeed }
  | none =>
    match waqi with
    | some w =>
      { success := true, source := "waqi", temperature := w.temperature
        humidity := w.humidity, windSpeed := w.windSpeed }
    | none =>
      match scraped with
      | some s =>
        { success := true, source := "scraped", temperature := s.temperature
          humidity := s.humidity, windSpeed := s.windSpeed }
      | none =>
        { success := true, source := "fallback", temperature := 20
          humidity := 50, windSpeed := 5 }

/-! ### Concrete example inputs used by witnesses -/

/-- A reading rejected by validation: `aqi = 501` is out of range. -/
def badReadingEx : ReadingIn :=
  { stationId := .vStr "s1", aqi := .vNum 501,
    pollutants := .pObj { pm25 := .vNum 10, pm10 := .vNum 20 } }

/-- The pollutant values of the spec's worked example. -/
def pollEx : Pollutants :=
  { pm25 := 196, pm10 := 315, co := 0, no2 := 0, so2 := 0, o3 := 0 }

/-- The spec's worked example reading: station `s1`, AQI 287, no metadata. -/
def readingEx : AQIReadingNoId :=
  { stationId := "s1", aqi := 287, pollutants := pollEx,
    timestamp := 1700000000000, source := .manual }

/-- An environment where the durable write succeeds but the mirror `set`
rejects (for instance the 10-second sync timeout). -/
def mirrorFailEnv : SaveEnv :=
  { firebaseConfigured := true, firestoreAvailable := true,
    addDocOutcome := .ret "doc1",
    sync :=
      { configured := true, dbAvailable := true,
        setOutcome := .thrown "Realtime Database sync timeout after 10 seconds" } }

/-- An environment where both stores accept the write. -/
def okEnv : SaveEnv :=
  { firebaseConfigured := true, firestoreAvailable := true,
    addDocOutcome := .ret "autoGen1",
    sync := { configured := true, dbAvailable := true, setOutcome := .ret () } }

/-- A concrete batch in which the middle item's mirror update fails. -/
def batchEx : List (BatchItem × UpdOutcome) :=
  [({ stationId := "s1", aqi := 250, pollutants := { pm25 := some 155 } }, .ok),
    ({ stationId := "s2", aqi := 180, pollutants := {} }, .fail "network error"),
    ({ stationId := "s3", aqi := 95, pollutants := { pm10 := some 80 } }, .ok)]

/-- An extraction whose AQI value is zero (treated as a failed attempt). -/
def zeroExtract : Extracted :=
  { delhiAqi := 0, pm25 := 0, pm10 := 0, temperature := 0, humidity := 0,
    windSpeed := 0, cities := [] }

/-- An extraction with a nonzero AQI but all secondary fields zero. -/
def aqiOnlyExtract : Extracted :=
  { delhiAqi := 287, pm25 := 0, pm10 := 0, temperature := 0, humidity := 0,
    windSpeed := 0, cities := [] }

/-- A concrete cached snapshot. -/
def cachedDataEx : AQIScrapedData :=
  { delhiAqi := 287, pm25 := 196, pm10 := 315, temperature := 15,
    humidity := 70, windSpeed := 10, lastUpdated := 1000, cities := [] }

/-- Recognizes the backoff event of the exception path. -/
def isBackoffEvent : ScrapeEvent → Bool
  | .backoff _ => true
  | _ => false

/-- A custom-range history query spanning far more than 90 days. -/
def histQueryEx : HistQuery :=
  { range := "custom", station := "aicte-delhi",
    startDate := some { raw := "2024-01-01", parsed := some 1704067200000 },
    endDate := some { raw := "2024-12-31", parsed := some 1735603200000 } }

/-! ### Theorems -/

/-- Helper: `syncToRealtimeDatabase` never propagates an exception — every
failure path inside it resolves to a normal return. -/
theorem sync_never_throws (env : SyncEnv) (sid : String) (r : AQIReadingNoId) :
    ∃ w, syncToRealtimeDatabase env sid r = .ret w := by
  rcases env with ⟨c, db, o⟩
  cases c <;> cases db <;> cases o <;>
    simp [syncToRealtimeDatabase, syncBody]

/-- Helper: when the raced mirror `set` rejects (error or timeout),
`syncToRealtimeDatabase` catches it and returns normally with no completed
write. -/
theorem sync_thrown_ret_none (env : SyncEnv) (sid : String) (r : AQIReadingNoId)
    (h : ∃ m, env.setOutcome = .thrown m) :
    syncToRealtimeDatabase env sid r = .ret none := by
  obtain ⟨m, hm⟩ := h
  rcases env with ⟨c, db, o⟩
  cases c <;> cases db <;> simp_all [syncToRealtimeDatabase, syncBody]

/-- C1: if the durable Firestore write succeeds and the subsequent Realtime
Database mirror write fails (error or 10s timeout), `saveAQIReading` still
returns a success result carrying the saved reading; the mirror failure is
caught inside `syncToRealtimeDatabase` and never propagates to the caller,
and `updateAQIData` delegates to the same path. -/
theorem saveAQIReading_mirror_failure_success (env : SaveEnv)
    (r : AQIReadingNoId) (docId msg : String)
    (hconf : env.firebaseConfigured = true)
    (havail : env.firestoreAvailable = true)
    (hdoc : env.addDocOutcome = .ret docId)
    (hfail : env.sync.setOutcome = .thrown msg) :
    (saveAQIReading env r).1 =
      { success := true,
        data := some
          { id := some docId, stationId := r.stationId, aqi := r.aqi,
            pollutants := r.pollutants, timestamp := r.timestamp,
            source := r.source, metadata := r.metadata } } ∧
    (∀ env2 sid r2, ∃ w, syncToRealtimeDatabase env2 sid r2 = .ret w) ∧
    (∀ sid now aqi p src md,
      updateAQIData env sid now aqi p src md =
        saveAQIReading env
          { stationId := sid, aqi := aqi, pollutants := p,
            timestamp := now, source := src.getD .manual, metadata := md }) := by
  refine ⟨?_, sync_never_throws, fun _ _ _ _ _ _ => rfl⟩
  have hs : syncToRealtimeDatabase env.sync r.stationId r = .ret none :=
    sync_thrown_ret_none _ _ _ ⟨msg, hfail⟩
  simp [saveAQIReading, hconf, havail, hdoc, hs]

/-- Witness for C1: a concrete run where the mirror sync times out and the
overall result is still a success carrying the saved reading. -/
theorem saveAQIReading_mirror_failure_success_witness :
    (saveAQIReading mirrorFailEnv readingEx).1 =
      { success := true,
        data := some
          { id := some "doc1", stationId := "s1", aqi := 287,
            pollutants := pollEx, timestamp := 1700000000000,
            source := .manual, metadata := none } } :=
  (saveAQIReading_mirror_failure_success mirrorFailEnv readingEx "doc1"
    "Realtime Database sync timeout after 10 seconds" rfl rfl rfl rfl).1

/-- Helper: a JavaScript value is a number value iff `typeof` says so. -/
theorem exists_num_iff (v : JSVal) : (∃ q, v = JSVal.vNum q) ↔ v.isNum = true := by
  cases v <;> simp [JSVal.isNum]

/-- C2: `validateReading` accepts a single reading iff `stationId` is a
non-empty string, `aqi` is a number in the closed range `[0, 500]`, and
`pollutants.pm25` and `pollutants.pm10` are both numbers; any violation
makes the single-reading POST path answer HTTP 400 with the structured
error (the route attempts no write in either case). -/
theorem validateReading_spec (d : ReadingIn) :
    (validateReading d = none ↔
      ((∃ s, d.stationId = JSVal.vStr s ∧ s ≠ "") ∧
        (∃ q, d.aqi = JSVal.vNum q ∧ 0 ≤ q ∧ q ≤ 500) ∧
        (∃ p, d.pollutants = PollVal.pObj p ∧
          (∃ a, p.pm25 = JSVal.vNum a) ∧ (∃ b, p.pm10 = JSVal.vNum b)))) ∧
    (∀ e, validateReading d = some e →
      postSingle d = { status := 400, success := false, error := some e }) := by
  refine ⟨?_, ?_⟩
  · obtain ⟨sid, aqi, pol⟩ := d
    rcases pol with ⟨pa, pb⟩ | _ <;> cases sid <;> cases aqi <;>
      simp only [validateReading, JSVal.falsy, JSVal.isStr,
        Bool.not_true, Bool.not_false, Bool.or_true, Bool.or_false,
        Bool.true_or, Bool.false_or] <;>
      split_ifs <;>
      simp_all [not_or, not_lt, exists_num_iff] <;>
      try (intro h1 h2
           exfalso
           rcases ‹_ ∨ _› with h3 | h3
           all_goals linarith)
  · intro e h
    simp [postSingle, h]

/-- Witness for C2: an out-of-range AQI is rejected with HTTP 400 and the
structured message. -/
theorem validateReading_spec_witness :
    postSingle badReadingEx =
      { status := 400, success := false,
        error := some "aqi must be a number between 0 and 500" } :=
  (validateReading_spec badReadingEx).2 _ (by decide)

/-- C8: the spec's worked example — saving the reading
`{stationId: "s1", aqi: 287, pollutants: {pm25: 196, pm10: 315}}` with no
metadata yields a durable document with exactly those fields and no
`metadata` key, a success result carrying the auto-generated id, and a
mirror write at `stations/s1` with `aqi 287`, `pm25 196`, `pm10 315` and
`lastUpdated` equal to the reading's timestamp. -/
theorem saveAQIReading_example :
    saveAQIReading okEnv readingEx =
      ({ success := true,
         data := some
           { id := some "autoGen1", stationId := "s1", aqi := 287,
             pollutants := pollEx, timestamp := 1700000000000,
             source := .manual, metadata := none } },
       { firestoreDoc := some
           { stationId := "s1", aqi := 287,
             pollutants := pollEx, timestamp := 1700000000000,
             source := .manual, metadata := none },
         rtdbSet := some
           { path := "stations/s1", aqi := 287, pm25 := 196,
             pm10 := 315, co := 0, no2 := 0, so2 := 0, o3 := 0,
             lastUpdated := 1700000000000, source := .manual } }) := by
  rfl

/-- Helper: the writes issued by the batch are exactly one per item,
independent of any item's outcome. -/
theorem issueUpdates_fst_map (now : Nat)
    (l : List (BatchItem × UpdOutcome)) :
    (issueUpdates now l).1.map Prod.fst =
      l.map fun u => mkBatchUpdate now u.1 := by
  induction l with
  | nil => rfl
  | cons u rest ih =>
    rcases u with ⟨it, o⟩
    cases o <;> simp [issueUpdates, ih]

/-- Helper: each issued write completes according to its own outcome only. -/
theorem issueUpdates_snd_map (now : Nat)
    (l : List (BatchItem × UpdOutcome)) :
    (issueUpdates now l).1.map Prod.snd =
      l.map fun u => decide (u.2 = UpdOutcome.ok) := by
  induction l with
  | nil => rfl
  | cons u rest ih =>
    rcases u with ⟨it, o⟩
    cases o <;> simp [issueUpdates, ih]

/-- Helper: the join surfaces no rejection iff every item succeeded. -/
theorem issueUpdates_err_none (now : Nat)
    (l : List (BatchItem × UpdOutcome)) :
    (issueUpdates now l).2 = none ↔ ∀ u ∈ l, u.2 = UpdOutcome.ok := by
  induction l with
  | nil => simp [issueUpdates]
  | cons u rest ih =>
    rcases u with ⟨it, o⟩
    cases o <;> simp [issueUpdates, ih]

/-- C3: in `batchUpdateRealtimeDB`, every item's mirror update is issued
regardless of the other items' outcomes (one write per item, in order), each
write's completion depends only on its own outcome, and the joined result
succeeds iff every item succeeded — a failure in one item neither blocks nor
prevents the others. -/
theorem batchUpdateRealtimeDB_independent (now : Nat)
    (updates : List (BatchItem × UpdOutcome)) :
    ((batchUpdateRealtimeDB true true now updates).2.map Prod.fst =
      updates.map fun u => mkBatchUpdate now u.1) ∧
    ((batchUpdateRealtimeDB true true now updates).2.map Prod.snd =
      updates.map fun u => decide (u.2 = UpdOutcome.ok)) ∧
    ((batchUpdateRealtimeDB true true now updates).1.success = true ↔
      ∀ u ∈ updates, u.2 = UpdOutcome.ok) := by
  have hb : batchUpdateRealtimeDB true true now updates =
      match (issueUpdates now updates).2 with
      | none => ({ success := true }, (issueUpdates now updates).1)
      | some msg =>
        ({ success := false, error := some msg }, (issueUpdates now updates).1) :=
    rfl
  cases h : (issueUpdates now updates).2 with
  | none =>
    rw [hb, h]
    refine ⟨issueUpdates_fst_map now updates, issueUpdates_snd_map now updates, ?_⟩
    exact ⟨fun _ => (issueUpdates_err_none now updates).mp h, fun _ => rfl⟩
  | some msg =>
    rw [hb, h]
    refine ⟨issueUpdates_fst_map now updates, issueUpdates_snd_map now updates, ?_⟩
    constructor
    · intro hfalse
      exact absurd hfalse (by simp)
    · intro hall
      exact absurd (h ▸ (issueUpdates_err_none now updates).mpr hall)
        (Option.some_ne_none msg)

/-- Witness for C3: a concrete batch whose middle item fails still issues
all three writes in order, the two other writes complete, and the joined
result reports the failure. -/
theorem batchUpdateRealtimeDB_independent_witness :
    ((batchUpdateRealtimeDB true true 42 batchEx).2.map Prod.fst =
      batchEx.map fun u => mkBatchUpdate 42 u.1) ∧
    ((batchUpdateRealtimeDB true true 42 batchEx).2.map Prod.snd =
      batchEx.map fun u => decide (u.2 = UpdOutcome.ok)) ∧
    ((batchUpdateRealtimeDB true true 42 batchEx).1.success = true ↔
      ∀ u ∈ batchEx, u.2 = UpdOutcome.ok) :=
  batchUpdateRealtimeDB_independent 42 batchEx

/-- Helper: a scrape call whose cache is absent or stale runs the retry
loop from attempt 1. -/
theorem scrapeAQIIn_miss (now : Nat) (cache : Option CacheSlot)
    (outcomes : Nat → AttemptOutcome) (hc : cacheFresh now cache = false) :
    scrapeAQIIn now cache outcomes = scrapeLoop now cache outcomes 1 maxRetries := by
  cases cache with
  | none => rfl
  | some slot =>
    have hnot : ¬((now : ℤ) - (slot.timestamp : ℤ) < (CACHE_DURATION : ℤ)) := by
      simpa [cacheFresh] using hc
    simp [scrapeAQIIn, hnot]

/-- Helper: an attempt whose extraction yields a zero AQI closes its context
and continues immediately with the next attempt — no backoff event. -/
theorem scrapeLoop_zero_step (now : Nat) (cache : Option CacheSlot)
    (outcomes : Nat → AttemptOutcome) (attempt rem : Nat) (d : Extracted)
    (h : outcomes attempt = AttemptOutcome.extracted d) (hz : d.delhiAqi = 0) :
    scrapeLoop now cache outcomes attempt (rem + 1) =
      ((scrapeLoop now cache outcomes (attempt + 1) rem).1,
        (scrapeLoop now cache outcomes (attempt + 1) rem).2.1,
        ScrapeEvent.newContext attempt :: ScrapeEvent.navigate attempt ::
          (scrapeLoop now cache outcomes (attempt + 1) rem).2.2) := by
  rw [scrapeLoop, h]
  simp [hz]

/-- Helper: an attempt blocked by the challenge closes its context and
continues immediately with the next attempt — no backoff event. -/
theorem scrapeLoop_blocked_step (now : Nat) (cache : Option CacheSlot)
    (outcomes : Nat → AttemptOutcome) (attempt rem : Nat)
    (h : outcomes attempt = AttemptOutcome.blocked) :
    scrapeLoop now cache outcomes attempt (rem + 1) =
      ((scrapeLoop now cache outcomes (attempt + 1) rem).1,
        (scrapeLoop now cache outcomes (attempt + 1) rem).2.1,
        ScrapeEvent.newContext attempt :: ScrapeEvent.navigate attempt ::
          (scrapeLoop now cache outcomes (attempt + 1) rem).2.2) := by
  rw [scrapeLoop, h]

/-- Helper: a nonzero extraction succeeds, stores the snapshot in the cache
and returns it. -/
theorem scrapeLoop_success_step (now : Nat) (cache : Option CacheSlot)
    (outcomes : Nat → AttemptOutcome) (attempt rem : Nat) (d : Extracted)
    (h : outcomes attempt = AttemptOutcome.extracted d) (hz : d.delhiAqi ≠ 0) :
    scrapeLoop now cache outcomes attempt (rem + 1) =
      (some (buildScrapeResult now d),
        some { data := some (buildScrapeResult now d), timestamp := now },
        [ScrapeEvent.newContext attempt, ScrapeEvent.navigate attempt]) := by
  rw [scrapeLoop, h]
  simp [hz]

/-- Helper: an exception on the final attempt returns `none` immediately. -/
theorem scrapeLoop_exn_last (now : Nat) (cache : Option CacheSlot)
    (outcomes : Nat → AttemptOutcome) (attempt : Nat)
    (h : outcomes attempt = AttemptOutcome.exn) :
    scrapeLoop now cache outcomes attempt (0 + 1) =
      (none, cache, [ScrapeEvent.newContext attempt, ScrapeEvent.navigate attempt]) := by
  rw [scrapeLoop, h]
  rfl

/-- Helper: an exception on a non-final attempt backs off with
`humanDelay(3000, 5000)` and retries. -/
theorem scrapeLoop_exn_step (now : Nat) (cache : Option CacheSlot)
    (outcomes : Nat → AttemptOutcome) (attempt rem : Nat)
    (h : outcomes attempt = AttemptOutcome.exn) (hrem : rem ≠ 0) :
    scrapeLoop now cache outcomes attempt (rem + 1) =
      ((scrapeLoop now cache outcomes (attempt + 1) rem).1,
        (scrapeLoop now cache outcomes (attempt + 1) rem).2.1,
        ScrapeEvent.newContext attempt :: ScrapeEvent.navigate attempt ::
          ScrapeEvent.backoff attempt ::
            (scrapeLoop now cache outcomes (attempt + 1) rem).2.2) := by
  rw [scrapeLoop, h]
  simp [hrem]

/-- C6: a call made while the cached snapshot is younger than the 5-minute
freshness window returns the cached value immediately, leaves the cache
unchanged, and performs no browser activity at all (no context creation, no
navigation — the empty event trace). -/
theorem scrapeAQIIn_cache_hit (now : Nat) (slot : CacheSlot)
    (outcomes : Nat → AttemptOutcome)
    (h : (now : ℤ) - (slot.timestamp : ℤ) < (CACHE_DURATION : ℤ)) :
    scrapeAQIIn now (some slot) outcomes = (slot.data, some slot, []) := by
  simp [scrapeAQIIn, h]

/-- Witness for C6: a concrete fresh-cache call returns the cached snapshot
with an empty event trace. -/
theorem scrapeAQIIn_cache_hit_witness :
    scrapeAQIIn 2000 (some { data := some cachedDataEx, timestamp := 1000 })
        (fun _ => AttemptOutcome.blocked) =
      (some cachedDataEx, some { data := some cachedDataEx, timestamp := 1000 }, []) :=
  scrapeAQIIn_cache_hit 2000 { data := some cachedDataEx, timestamp := 1000 } _
    (by decide)

/-- Helper: the retry loop writes the cache only when it succeeds; every
run that returns `none` leaves the cache slot exactly as it was, and a run
that returns data has stored exactly that data with the current capture
time. -/
theorem scrapeLoop_cache_frame (now : Nat) (cache : Option CacheSlot)
    (outcomes : Nat → AttemptOutcome) :
    ∀ (remaining attempt : Nat),
      ((scrapeLoop now cache outcomes attempt remaining).1 = none →
        (scrapeLoop now cache outcomes attempt remaining).2.1 = cache) ∧
      ∀ d, (scrapeLoop now cache outcomes attempt remaining).1 = some d →
        (scrapeLoop now cache outcomes attempt remaining).2.1 =
          some { data := some d, timestamp := now } := by
  intro remaining
  induction remaining with
  | zero =>
    intro attempt
    exact ⟨fun _ => rfl, fun d hd => absurd hd (by simp [scrapeLoop])⟩
  | succ rem ih =>
    intro attempt
    cases ho : outcomes attempt with
    | blocked =>
      rw [scrapeLoop_blocked_step now cache outcomes attempt rem ho]
      exact ih (attempt + 1)
    | extracted d =>
      by_cases hz : d.delhiAqi = 0
      · rw [scrapeLoop_zero_step now cache outcomes attempt rem d ho hz]
        exact ih (attempt + 1)
      · rw [scrapeLoop_success_step now cache outcomes attempt rem d ho hz]
        refine ⟨fun hnone => absurd hnone (by simp), fun d2 hd2 => ?_⟩
        simp only [Option.some.injEq] at hd2
        rw [hd2]
    | exn =>
      cases rem with
      | zero =>
        rw [scrapeLoop_exn_last now cache outcomes attempt ho]
        exact ⟨fun _ => rfl, fun d hd => absurd hd (by simp)⟩
      | succ rem2 =>
        rw [scrapeLoop_exn_step now cache outcomes attempt (rem2 + 1) ho
          (Nat.succ_ne_zero rem2)]
        exact ih (attempt + 1)

/-- C7: `scrapeAQIIn` mutates the module-level cache only on a successful
extraction; on every failure path the cache is left exactly as it was (a
stale prior entry is never cleared or overwritten by a failure), and any
mutation stores exactly the successful snapshot with the current capture
time. -/
theorem scrapeAQIIn_cache_frame (now : Nat) (cache : Option CacheSlot)
    (outcomes : Nat → AttemptOutcome) :
    ((scrapeAQIIn now cache outcomes).1 = none →
      (scrapeAQIIn now cache outcomes).2.1 = cache) ∧
    ((scrapeAQIIn now cache outcomes).2.1 = cache ∨
      ∃ d, (scrapeAQIIn now cache outcomes).1 = some d ∧
        (scrapeAQIIn now cache outcomes).2.1 =
          some { data := some d, timestamp := now }) := by
  cases cache with
  | none =>
    have hf := scrapeLoop_cache_frame now none outcomes maxRetries 1
    have hm : scrapeAQIIn now none outcomes = scrapeLoop now none outcomes 1 maxRetries := rfl
    rw [hm]
    refine ⟨hf.1, ?_⟩
    cases hres : (scrapeLoop now none outcomes 1 maxRetries).1 with
    | none => exact Or.inl (hf.1 hres)
    | some d => exact Or.inr ⟨d, rfl, hf.2 d hres⟩
  | some slot =>
    by_cases hfresh : (now : ℤ) - (slot.timestamp : ℤ) < (CACHE_DURATION : ℤ)
    · have hm : scrapeAQIIn now (some slot) outcomes = (slot.data, some slot, []) := by
        simp [scrapeAQIIn, hfresh]
      rw [hm]
      exact ⟨fun _ => rfl, Or.inl rfl⟩
    · have hm : scrapeAQIIn now (some slot) outcomes =
          scrapeLoop now (some slot) outcomes 1 maxRetries := by
        simp [scrapeAQIIn, hfresh]
      have hf := scrapeLoop_cache_frame now (some slot) outcomes maxRetries 1
      rw [hm]
      refine ⟨hf.1, ?_⟩
      cases hres : (scrapeLoop now (some slot) outcomes 1 maxRetries).1 with
      | none => exact Or.inl (hf.1 hres)
      | some d => exact Or.inr ⟨d, rfl, hf.2 d hres⟩

/-- Witness for C7: a concrete run with a stale cache in which every attempt
is blocked returns no data and leaves the stale cache slot untouched. -/
theorem scrapeAQIIn_cache_frame_witness :
    (scrapeAQIIn 10000000 (some { data := some cachedDataEx, timestamp := 1000 })
        (fun _ => AttemptOutcome.blocked)).2.1 =
      some { data := some cachedDataEx, timestamp := 1000 } :=
  (scrapeAQIIn_cache_frame 10000000
    (some { data := some cachedDataEx, timestamp := 1000 })
    (fun _ => AttemptOutcome.blocked)).1 (by decide)

/-- Counterexample for C5 (as stated): a run in which all three attempts
extract a zero AQI does retry with a new context each time and returns
`null` after the third attempt, but performs no randomized backoff between
the attempts — the zero-value `continue` path (source lines 891-897) skips
the `humanDelay(3000, 5000)` that only the exception path (line 933) runs,
so the claim's "with a randomized backoff between attempts" is false on
this path. -/
theorem scrape_zero_value_no_backoff_cex :
    (scrapeAQIIn 0 none fun _ => AttemptOutcome.extracted zeroExtract).1 = none ∧
    (scrapeAQIIn 0 none fun _ => AttemptOutcome.extracted zeroExtract).2.2 =
      [ScrapeEvent.newContext 1, ScrapeEvent.navigate 1,
        ScrapeEvent.newContext 2, ScrapeEvent.navigate 2,
        ScrapeEvent.newContext 3, ScrapeEvent.navigate 3] ∧
    ((scrapeAQIIn 0 none fun _ => AttemptOutcome.extracted zeroExtract).2.2.filter
        isBackoffEvent) = [] := by
  decide

/-- C5 (amended): an attempt whose extracted AQI is 0 is treated as a
failure, and the whole attempt is retried with a new browser context, up to
3 attempts total; after the third failed attempt the function returns
`none` — with no backoff between the zero-value retries (the randomized
backoff exists only on the exception path). -/
theorem scrape_zero_value_retry (now : Nat) (cache : Option CacheSlot)
    (outcomes : Nat → AttemptOutcome) (d1 d2 d3 : Extracted)
    (hc : cacheFresh now cache = false)
    (h1 : outcomes 1 = AttemptOutcome.extracted d1) (hz1 : d1.delhiAqi = 0)
    (h2 : outcomes 2 = AttemptOutcome.extracted d2) (hz2 : d2.delhiAqi = 0)
    (h3 : outcomes 3 = AttemptOutcome.extracted d3) (hz3 : d3.delhiAqi = 0) :
    scrapeAQIIn now cache outcomes =
      (none, cache,
        [ScrapeEvent.newContext 1, ScrapeEvent.navigate 1,
          ScrapeEvent.newContext 2, ScrapeEvent.navigate 2,
          ScrapeEvent.newContext 3, ScrapeEvent.navigate 3]) := by
  have t1 : scrapeLoop now cache outcomes 1 maxRetries =
      ((scrapeLoop now cache outcomes 2 2).1,
        (scrapeLoop now cache outcomes 2 2).2.1,
        ScrapeEvent.newContext 1 :: ScrapeEvent.navigate 1 ::
          (scrapeLoop now cache outcomes 2 2).2.2) :=
    scrapeLoop_zero_step now cache outcomes 1 2 d1 h1 hz1
  have t2 : scrapeLoop now cache outcomes 2 2 =
      ((scrapeLoop now cache outcomes 3 1).1,
        (scrapeLoop now cache outcomes 3 1).2.1,
        ScrapeEvent.newContext 2 :: ScrapeEvent.navigate 2 ::
          (scrapeLoop now cache outcomes 3 1).2.2) :=
    scrapeLoop_zero_step now cache outcomes 2 1 d2 h2 hz2
  have t3 : scrapeLoop now cache outcomes 3 1 =
      ((scrapeLoop now cache outcomes 4 0).1,
        (scrapeLoop now cache outcomes 4 0).2.1,
        ScrapeEvent.newContext 3 :: ScrapeEvent.navigate 3 ::
          (scrapeLoop now cache outcomes 4 0).2.2) :=
    scrapeLoop_zero_step now cache outcomes 3 0 d3 h3 hz3
  have t4 : scrapeLoop now cache outcomes 4 0 = (none, cache, []) := rfl
  rw [scrapeAQIIn_miss now cache outcomes hc, t1, t2, t3, t4]

/-- Witness for C5 (amended): a concrete run with three zero-AQI
extractions returns `none` after three fresh-context attempts. -/
theorem scrape_zero_value_retry_witness :
    scrapeAQIIn 7000000 none (fun _ => AttemptOutcome.extracted zeroExtract) =
      (none, none,
        [ScrapeEvent.newContext 1, ScrapeEvent.navigate 1,
          ScrapeEvent.newContext 2, ScrapeEvent.navigate 2,
          ScrapeEvent.newContext 3, ScrapeEvent.navigate 3]) :=
  scrape_zero_value_retry 7000000 none _ zeroExtract zeroExtract zeroExtract
    rfl rfl rfl rfl rfl rfl rfl

/-- Helper: any data returned by the retry loop was built by
`buildScrapeResult` from some attempt's extraction with a nonzero AQI. -/
theorem scrapeLoop_success_shape (now : Nat) (cache : Option CacheSlot)
    (outcomes : Nat → AttemptOutcome) :
    ∀ (remaining attempt : Nat) (d : AQIScrapedData),
      (scrapeLoop now cache outcomes attempt remaining).1 = some d →
      ∃ i e, outcomes i = AttemptOutcome.extracted e ∧ e.delhiAqi ≠ 0 ∧
        d = buildScrapeResult now e := by
  intro remaining
  induction remaining with
  | zero =>
    intro attempt d hd
    exact absurd hd (by simp [scrapeLoop])
  | succ rem ih =>
    intro attempt d hd
    cases ho : outcomes attempt with
    | blocked =>
      rw [scrapeLoop_blocked_step now cache outcomes attempt rem ho] at hd
      exact ih (attempt + 1) d hd
    | extracted e =>
      by_cases hz : e.delhiAqi = 0
      · rw [scrapeLoop_zero_step now cache outcomes attempt rem e ho hz] at hd
        exact ih (attempt + 1) d hd
      · rw [scrapeLoop_success_step now cache outcomes attempt rem e ho hz] at hd
        simp only [Option.some.injEq] at hd
        exact ⟨attempt, e, ho, hz, hd.symm⟩
    | exn =>
      cases rem with
      | zero =>
        rw [scrapeLoop_exn_last now cache outcomes attempt ho] at hd
        exact absurd hd (by simp)
      | succ rem2 =>
        rw [scrapeLoop_exn_step now cache outcomes attempt (rem2 + 1) ho
          (Nat.succ_ne_zero rem2)] at hd
        exact ih (attempt + 1) d hd

/-- Helper: when the extracted AQI is nonzero, every secondary field of the
built snapshot is strictly positive (extracted values are kept, zero or
missing ones are replaced by synthesized positives). -/
theorem buildScrapeResult_pos (now : Nat) (e : Extracted)
    (h : e.delhiAqi ≠ 0) :
    0 < (buildScrapeResult now e).pm25 ∧ 0 < (buildScrapeResult now e).pm10 ∧
    0 < (buildScrapeResult now e).temperature ∧
    0 < (buildScrapeResult now e).humidity ∧
    0 < (buildScrapeResult now e).windSpeed := by
  have h1 : (1 : ℚ) ≤ (e.delhiAqi : ℚ) := by
    exact_mod_cast Nat.one_le_iff_ne_zero.mpr h
  refine ⟨?_, ?_, ?_, ?_, ?_⟩ <;>
    simp only [buildScrapeResult, jsRound] <;> split_ifs with hz
  · exact_mod_cast Nat.pos_of_ne_zero hz
  · have : (1 : ℤ) ≤ ⌊(e.delhiAqi : ℚ) * (7 / 10) + 1 / 2⌋ := by
      rw [Int.le_floor]
      push_cast
      nlinarith
    omega
  · exact_mod_cast Nat.pos_of_ne_zero hz
  · have : (1 : ℤ) ≤ ⌊(e.delhiAqi : ℚ) * (11 / 10) + 1 / 2⌋ := by
      rw [Int.le_floor]
      push_cast
      nlinarith
    omega
  · exact_mod_cast Nat.pos_of_ne_zero hz
  · norm_num
  · exact_mod_cast Nat.pos_of_ne_zero hz
  · norm_num
  · exact_mod_cast Nat.pos_of_ne_zero hz
  · norm_num

/-- C10: whenever a non-cached `scrapeAQIIn` call succeeds, the returned
snapshot was built from an extraction with a nonzero AQI; any secondary
field extracted as 0 (missing) has been substituted — `pm25` by
`round(aqi * 0.7)`, `pm10` by `round(aqi * 1.1)`, temperature by 15,
humidity by 70, wind speed by 10 — and no secondary field of the result is
ever 0 (all are strictly positive). -/
theorem scrape_success_synthesized_fields (now : Nat)
    (cache : Option CacheSlot) (outcomes : Nat → AttemptOutcome)
    (d : AQIScrapedData) (hc : cacheFresh now cache = false)
    (h : (scrapeAQIIn now cache outcomes).1 = some d) :
    (∃ e, (∃ i, outcomes i = AttemptOutcome.extracted e) ∧ e.delhiAqi ≠ 0 ∧
      d = buildScrapeResult now e ∧
      (e.pm25 = 0 → d.pm25 = jsRound ((e.delhiAqi : ℚ) * (7 / 10))) ∧
      (e.pm10 = 0 → d.pm10 = jsRound ((e.delhiAqi : ℚ) * (11 / 10))) ∧
      (e.temperature = 0 → d.temperature = 15) ∧
      (e.humidity = 0 → d.humidity = 70) ∧
      (e.windSpeed = 0 → d.windSpeed = 10)) ∧
    (0 < d.pm25 ∧ 0 < d.pm10 ∧ 0 < d.temperature ∧ 0 < d.humidity ∧
      0 < d.windSpeed) := by
  rw [scrapeAQIIn_miss now cache outcomes hc] at h
  obtain ⟨i, e, hi, hz, hd⟩ :=
    scrapeLoop_success_shape now cache outcomes maxRetries 1 d h
  subst hd
  refine ⟨⟨e, ⟨i, hi⟩, hz, rfl, ?_, ?_, ?_, ?_, ?_⟩,
    buildScrapeResult_pos now e hz⟩ <;>
    (intro h0
     simp [buildScrapeResult, h0])

/-- Witness for C10: a concrete successful scrape whose secondary fields
were all extracted as 0 yields strictly positive synthesized values. -/
theorem scrape_success_synthesized_fields_witness :
    0 < (buildScrapeResult 5000 aqiOnlyExtract).pm25 ∧
    0 < (buildScrapeResult 5000 aqiOnlyExtract).pm10 ∧
    0 < (buildScrapeResult 5000 aqiOnlyExtract).temperature ∧
    0 < (buildScrapeResult 5000 aqiOnlyExtract).humidity ∧
    0 < (buildScrapeResult 5000 aqiOnlyExtract).windSpeed :=
  (scrape_success_synthesized_fields 5000 none
    (fun _ => AttemptOutcome.extracted aqiOnlyExtract)
    (buildScrapeResult 5000 aqiOnlyExtract) rfl rfl).2

/-- C4: any custom-range historical GET whose parsed dates have
`startDate > endDate` or span more than 90 days is answered with an HTTP
400 error; the store (`getHistoricalData`) is never reached (the result is
a `badRequest`, not a `fetched`). -/
theorem historyGET_bad_custom_range_rejected (stationIds : List String)
    (q : HistQuery) (sp ep : DateParam) (s e : ℤ)
    (hr : q.range = "custom")
    (hsp : q.startDate = some sp) (hep : q.endDate = some ep)
    (hs : sp.parsed = some s) (he : ep.parsed = some e)
    (hbad : e < s ∨ 90 * 86400000 < e - s) :
    ∃ msg, historyGET stationIds q = HistResponse.badRequest msg := by
  have hcm : ("custom" : String) ∈ validRanges := by decide
  by_cases hst : q.station ∈ stationIds
  · rcases hbad with hlt | hspan
    · refine ⟨"Start date must be before or equal to end date", ?_⟩
      simp [historyGET, hcm, hst, hr, hsp, hep, hs, he, hlt]
    · have hnot : ¬(e < s) := by omega
      have hceil : 90 < ⌈((e : ℚ) - (s : ℚ)) / (1000 * 60 * 60 * 24)⌉ := by
        rw [Int.lt_ceil,
          lt_div_iff₀ (by norm_num : (0 : ℚ) < 1000 * 60 * 60 * 24)]
        have h2 : ((90 * 86400000 : ℤ) : ℚ) < ((e - s : ℤ) : ℚ) := by
          exact_mod_cast hspan
        push_cast at h2 ⊢
        linarith
      refine ⟨"Date range cannot exceed 90 days", ?_⟩
      simp [historyGET, hcm, hst, hr, hsp, hep, hs, he, hnot, hceil]
  · refine ⟨"Invalid station", ?_⟩
    have hm : q.range ∈ validRanges := by rw [hr]; exact hcm
    simp [historyGET, hm, hst]

/-- Witness for C4: a concrete custom query spanning a full year (far over
90 days) is rejected with an HTTP 400 error. -/
theorem historyGET_bad_custom_range_rejected_witness :
    ∃ msg, historyGET ["aicte-delhi"] histQueryEx = HistResponse.badRequest msg :=
  historyGET_bad_custom_range_rejected ["aicte-delhi"] histQueryEx
    { raw := "2024-01-01", parsed := some 1704067200000 }
    { raw := "2024-12-31", parsed := some 1735603200000 }
    1704067200000 1735603200000 rfl rfl rfl rfl rfl (Or.inr (by decide))

/-- C9: the weather GET handler tries AccuWeather, then WAQI, then scraped
data, then static defaults, returning the first tier that yields data; the
`source` tag identifies that tier, each measurement comes from the winning
tier, and when every tier fails the response carries temperature 20,
humidity 50 and wind speed 5 with the `fallback` tag. -/
theorem weatherGET_fallback_chain (accu : Option AccuWeatherData)
    (waqi : Option WAQIWeatherData) (scraped : Option ScrapedWeather) :
    (weatherGET accu waqi scraped).success = true ∧
    (weatherGET accu waqi scraped).source =
      (if accu.isSome then "accuweather"
       else if waqi.isSome then "waqi"
       else if scraped.isSome then "scraped" else "fallback") ∧
    (weatherGET accu waqi scraped).temperature =
      (accu.map AccuWeatherData.temperature).getD
        ((waqi.map WAQIWeatherData.temperature).getD
          ((scraped.map ScrapedWeather.temperature).getD 20)) ∧
    (weatherGET accu waqi scraped).humidity =
      (accu.map AccuWeatherData.humidity).getD
        ((waqi.map WAQIWeatherData.humidity).getD
          ((scraped.map ScrapedWeather.humidity).getD 50)) ∧
    (weatherGET accu waqi scraped).windSpeed =
      (accu.map AccuWeatherData.windSpeed).getD
        ((waqi.map WAQIWeatherData.windSpeed).getD
          ((scraped.map ScrapedWeather.windSpeed).getD 5)) := by
  cases accu <;> cases waqi <;> cases scraped <;> simp [weatherGET]

end Pranamesh
